import Mathlib

/-!
Shallow embedding of the Gacha-Website-Test core modules:

* `src/three/material.ts` — the specular-only shader material
  (GLSL fragment/vertex shader helpers, `createSpecularOnlyMaterial`
  uniform defaults, `setSpecularLight`);
* `src/three/lighting.ts` — the `SpecularLight` state
  (`createSpecularLight`, `setSpecularLightIntensity`);
* `src/three/interaction.ts` — the pointer / device-orientation light
  direction controller (`createInteraction`).

Scalars are modelled as exact reals; JavaScript numbers that may be
non-finite (NaN, ±Infinity) are modelled by the sum type `JNum`.
-/

/-- A 3-component vector of reals (GLSL `vec3`, three.js `Vector3`). -/
structure Vec3 where
  x : ℝ
  y : ℝ
  z : ℝ


/-- A 4-component vector of reals (GLSL `vec4`, e.g. a `texture2D` result
with channels r = x, g = y, b = z, a = w). -/
structure Vec4 where
  x : ℝ
  y : ℝ
  z : ℝ
  w : ℝ


/-- The `.xyz` swizzle of a `vec4`. -/
def Vec4.xyz (v : Vec4) : Vec3 := ⟨v.x, v.y, v.z⟩

instance : Add Vec3 := ⟨fun a b => ⟨a.x + b.x, a.y + b.y, a.z + b.z⟩⟩

instance : Neg Vec3 := ⟨fun a => ⟨-a.x, -a.y, -a.z⟩⟩

instance : Sub Vec3 := ⟨fun a b => ⟨a.x - b.x, a.y - b.y, a.z - b.z⟩⟩

instance : SMul ℝ Vec3 := ⟨fun c a => ⟨c * a.x, c * a.y, c * a.z⟩⟩

theorem Vec3.add_def (a b : Vec3) : a + b = ⟨a.x + b.x, a.y + b.y, a.z + b.z⟩ := rfl

theorem Vec3.smul_def (c : ℝ) (a : Vec3) : c • a = ⟨c * a.x, c * a.y, c * a.z⟩ := rfl

theorem Vec3.neg_def (a : Vec3) : -a = ⟨-a.x, -a.y, -a.z⟩ := rfl

/-- Dot product (GLSL `dot`). -/
def dot3 (a b : Vec3) : ℝ := a.x * b.x + a.y * b.y + a.z * b.z

/-- Squared Euclidean length of a `Vec3`. -/
def normSq (v : Vec3) : ℝ := v.x ^ 2 + v.y ^ 2 + v.z ^ 2

/-- Euclidean length (three.js `Vector3.length`, GLSL `length`). -/
noncomputable def norm3 (v : Vec3) : ℝ := Real.sqrt (normSq v)

/-- A 3×3 matrix stored as three column vectors (GLSL `mat3(T, B, N)`;
`m.c2` is the GLSL column access `m[2]`). -/
structure Mat3 where
  c0 : Vec3
  c1 : Vec3
  c2 : Vec3

/-- GLSL matrix–vector product `m * v` (columns weighted by components). -/
def Mat3.mulVec (m : Mat3) (v : Vec3) : Vec3 := v.x • m.c0 + v.y • m.c1 + v.z • m.c2

/-- JavaScript `a || b` for a numeric `a` that is known to be a real
(falsy numeric values are `0`; NaN is handled separately via `JNum`). -/
noncomputable def jsOr (a b : ℝ) : ℝ := if a = 0 then b else a

/-- `clamp` as written both in the shader (GLSL `clamp`), in
`THREE.MathUtils.clamp` and in interaction.ts
(`Math.max(min, Math.min(max, v))`). -/
noncomputable def clampR (v lo hi : ℝ) : ℝ := max lo (min hi v)

/-- three.js `Vector3.normalize`: `divideScalar(length() || 1)`.
A zero vector is left unchanged (division by `1`). -/
noncomputable def threeNormalize (v : Vec3) : Vec3 := (1 / jsOr (norm3 v) 1) • v

/-- GLSL `normalize`: division by the length.  (On a zero vector GLSL is
undefined; in this model `1 / 0 = 0`, giving the zero vector.  No claim
evaluates it there.) -/
noncomputable def glslNormalize (v : Vec3) : Vec3 := (1 / norm3 v) • v

theorem normSq_nonneg (v : Vec3) : 0 ≤ normSq v := by
  have hx := sq_nonneg v.x
  have hy := sq_nonneg v.y
  have hz := sq_nonneg v.z
  unfold normSq; linarith

theorem normSq_eq_zero_iff (v : Vec3) : normSq v = 0 ↔ v = ⟨0, 0, 0⟩ := by
  constructor
  · intro h
    have hx := sq_nonneg v.x
    have hy := sq_nonneg v.y
    have hz := sq_nonneg v.z
    unfold normSq at h
    have hx0 : v.x ^ 2 = 0 := by linarith
    have hy0 : v.y ^ 2 = 0 := by linarith
    have hz0 : v.z ^ 2 = 0 := by linarith
    cases v
    simp_all [pow_eq_zero_iff]
  · intro h; subst h; simp [normSq]

theorem norm3_nonneg (v : Vec3) : 0 ≤ norm3 v := Real.sqrt_nonneg _

theorem norm3_eq_zero_iff (v : Vec3) : norm3 v = 0 ↔ v = ⟨0, 0, 0⟩ := by
  rw [norm3, Real.sqrt_eq_zero (normSq_nonneg v)]
  exact normSq_eq_zero_iff v

theorem normSq_smul (c : ℝ) (v : Vec3) : normSq (c • v) = c ^ 2 * normSq v := by
  cases v
  simp only [Vec3.smul_def, normSq]
  ring

theorem norm3_smul (c : ℝ) (v : Vec3) : norm3 (c • v) = |c| * norm3 v := by
  rw [norm3, normSq_smul, Real.sqrt_mul (sq_nonneg c), Real.sqrt_sq_eq_abs, norm3]

theorem threeNormalize_of_ne_zero {v : Vec3} (h : v ≠ ⟨0, 0, 0⟩) :
    threeNormalize v = (1 / norm3 v) • v := by
  have hn : norm3 v ≠ 0 := fun h0 => h ((norm3_eq_zero_iff v).mp h0)
  rw [threeNormalize, jsOr, if_neg hn]

theorem norm3_threeNormalize {v : Vec3} (h : v ≠ ⟨0, 0, 0⟩) :
    norm3 (threeNormalize v) = 1 := by
  have hn : norm3 v ≠ 0 := fun h0 => h ((norm3_eq_zero_iff v).mp h0)
  have hpos : 0 < norm3 v := lt_of_le_of_ne (norm3_nonneg v) (Ne.symm hn)
  rw [threeNormalize_of_ne_zero h, norm3_smul, abs_of_pos (by positivity)]
  field_simp

theorem threeNormalize_z_pos {v : Vec3} (h : 0 < v.z) :
    0 < (threeNormalize v).z := by
  have hne : v ≠ ⟨0, 0, 0⟩ := by
    intro h0; rw [h0] at h; exact lt_irrefl 0 h
  have hn : norm3 v ≠ 0 := fun h0 => hne ((norm3_eq_zero_iff v).mp h0)
  have hpos : 0 < norm3 v := lt_of_le_of_ne (norm3_nonneg v) (Ne.symm hn)
  rw [threeNormalize_of_ne_zero hne, Vec3.smul_def]
  have : 0 < 1 / norm3 v := by positivity
  exact mul_pos this h

theorem ne_zero_of_z_pos {v : Vec3} (h : 0 < v.z) : v ≠ ⟨0, 0, 0⟩ := by
  intro h0; rw [h0] at h; exact lt_irrefl 0 h

/-! ## material.ts — fragment shader -/

/-- GLSL `mix(a, b, t) = a * (1 - t) + b * t`. -/
def mixR (a b t : ℝ) : ℝ := a * (1 - t) + b * t

/-- Shader helper `float saturate(float x) { return clamp(x, 0.0, 1.0); }`. -/
noncomputable def saturate (x : ℝ) : ℝ := clampR x 0 1

/-- The shader uniforms of the specular-only material
(`SpecularOnlyMaterial.uniforms`, scalar/vector values only; the texture
sampler uniforms are modelled by the sample values fed to `fragmentMain`). -/
structure ShaderUniforms where
  uAlphaCutoff : ℝ
  uSpecularColor : Vec3
  uSpecularIntensity : ℝ
  uSpecularCap : ℝ
  uNormalScale : ℝ
  uLightDirView : Vec3
  uLightIntensity : ℝ

/-- Shader function `getSpecularNormal`, with the normal-map sample
(`texture2D(uNormalMap, vUv)`) passed in as `normalS`. -/
noncomputable def getSpecularNormal (vTBN : Mat3) (uNormalScale : ℝ) (normalS : Vec4) : Vec3 :=
  let N := glslNormalize vTBN.c2
  if uNormalScale ≤ 0 then N
  else
    let nTS : Vec3 := ⟨normalS.x * 2 - 1, normalS.y * 2 - 1, normalS.z * 2 - 1⟩
    let nTS : Vec3 := ⟨nTS.x * uNormalScale, nTS.y * uNormalScale, nTS.z⟩
    let nTS := glslNormalize nTS
    glslNormalize (vTBN.mulVec nTS)

/-- Shader function `getPerPixelRoughness`, with the roughness-map sample
passed in as `roughS`.  The initial `float r = 0.6;` of the source is kept
(as a shadowed binding): it is overwritten unconditionally by the texture
read before the clamp. -/
noncomputable def getPerPixelRoughness (roughS : Vec4) : ℝ :=
  let r : ℝ := 6 / 10
  let r : ℝ := roughS.x
  clampR r (4 / 100) 1

/-- The additive specular scalar computed by the fragment `main` before the
cap (`spec * uSpecularIntensity * li` with `spec = pow(NoH, shininess) * NoL`). -/
noncomputable def specularAdd (u : ShaderUniforms) (vViewPos : Vec3) (vTBN : Mat3)
    (normalS roughS : Vec4) : ℝ :=
  let V := glslNormalize (-vViewPos)
  let L := glslNormalize u.uLightDirView
  let N := getSpecularNormal vTBN u.uNormalScale normalS
  let rough := getPerPixelRoughness roughS
  let shininess := mixR 256 8 rough
  let H := glslNormalize (L + V)
  let NoH := saturate (dot3 N H)
  let spec := NoH ^ shininess
  let NoL := saturate (dot3 N L)
  let spec := spec * NoL
  spec * u.uSpecularIntensity * u.uLightIntensity

/-- The fragment shader `main` of `createSpecularOnlyMaterial`.  Texture
reads are passed in as their sampled values (`baseS`, `normalS`, `roughS`,
`alphaS`); `none` models `discard`, `some (rgb, a)` models `gl_FragColor`. -/
noncomputable def fragmentMain (u : ShaderUniforms) (vViewPos : Vec3) (vTBN : Mat3)
    (baseS normalS roughS alphaS : Vec4) : Option (Vec3 × ℝ) :=
  let base := baseS
  let alpha := base.w * alphaS.x
  if alpha < u.uAlphaCutoff then none
  else
    let li := u.uLightIntensity
    if li ≤ 0 then some (base.xyz, alpha)
    else
      let specAdd := min (specularAdd u vViewPos vTBN normalS roughS) u.uSpecularCap
      let outRgb := base.xyz + specAdd • u.uSpecularColor
      some (outRgb, alpha)

/-- The composition of the roughness clamp (`getPerPixelRoughness`) and the
shininess mapping `mix(256.0, 8.0, rough)` of the fragment `main`, as a
function of the sampled red channel. -/
noncomputable def shininessOfRoughness (r : ℝ) : ℝ := mixR 256 8 (clampR r (4 / 100) 1)

/-! ## lighting.ts -/

/-- A JavaScript number: finite real, NaN, or a signed infinity. -/
inductive JNum where
  | nan : JNum
  | posInf : JNum
  | negInf : JNum
  | finite (val : ℝ) : JNum

/-- `Number.isFinite`. -/
def JNum.isFinite : JNum → Bool
  | .finite _ => true
  | _ => false

/-- `Number.isFinite(intensity) ? intensity : 0` from
`setSpecularLightIntensity`. -/
def jsFiniteOrZero : JNum → ℝ
  | .finite v => v
  | _ => 0

/-- The `SpecularLight` record of lighting.ts. -/
structure SpecularLight where
  directionWorld : Vec3
  intensity : ℝ
  maxIntensity : ℝ

/-- `setSpecularLightIntensity`: sanitize non-finite input to `0`, then
`THREE.MathUtils.clamp(i, 0, light.maxIntensity)`. -/
noncomputable def setSpecularLightIntensity (light : SpecularLight) (intensity : JNum) :
    SpecularLight :=
  let i := jsFiniteOrZero intensity
  { light with intensity := clampR i 0 light.maxIntensity }

/-- `DEFAULT_DIRECTION_WORLD = new THREE.Vector3(0.5, 0.5, 1.0).normalize()`. -/
noncomputable def DEFAULT_DIRECTION_WORLD : Vec3 := threeNormalize ⟨1 / 2, 1 / 2, 1⟩

/-- `DEFAULT_MAX_INTENSITY = 0.35`. -/
noncomputable def DEFAULT_MAX_INTENSITY : ℝ := 35 / 100

/-- The optional argument record of `createSpecularLight`. -/
structure SpecularLightOpts where
  directionWorld : Option Vec3
  intensity : Option JNum
  maxIntensity : Option ℝ

/-- `createSpecularLight`: direction defaulted and re-normalized, max
intensity floored at `0`, then the initial intensity routed through
`setSpecularLightIntensity`. -/
noncomputable def createSpecularLight (opts : Option SpecularLightOpts) : SpecularLight :=
  let maxIntensity := max 0 ((opts.bind (·.maxIntensity)).getD DEFAULT_MAX_INTENSITY)
  let light : SpecularLight :=
    { directionWorld := threeNormalize ((opts.bind (·.directionWorld)).getD DEFAULT_DIRECTION_WORLD)
      intensity := 0
      maxIntensity := maxIntensity }
  setSpecularLightIntensity light ((opts.bind (·.intensity)).getD (.finite 0))

/-! ## material.ts — setSpecularLight -/

/-- The two uniforms touched by `setSpecularLight`, with the intensity kept
as a raw JavaScript number (uniform values are plain JS numbers and may be
non-finite). -/
structure LightUniforms where
  uLightDirView : Vec3
  uLightIntensity : JNum

/-- `setSpecularLight(mat, lightDirView, intensity)`:
`uLightDirView.value.copy(lightDirView).normalize()` and a plain
assignment of the intensity. -/
noncomputable def setSpecularLight (u : LightUniforms) (lightDirView : Vec3)
    (intensity : JNum) : LightUniforms :=
  { u with
    uLightDirView := threeNormalize lightDirView
    uLightIntensity := intensity }

/-! ## interaction.ts — light-direction controller

The controller closure of `createInteraction` is modelled as a state
record plus one function per event handler / method.  After `dispose()`
the `pointermove` and `deviceorientation` listeners are removed, so those
events no longer reach the handlers; the trace step function reflects
this by ignoring them on a disposed state. -/

/-- The `OrientationSample` record. -/
structure OrientationSample where
  beta : ℝ
  gamma : ℝ
  hasSample : Bool

/-- The `InteractionOptions` argument record (all fields optional). -/
structure InteractionOptions where
  smoothing : Option ℝ
  enableDeviceOrientation : Option Bool
  maxTiltDeg : Option ℝ

/-- The captured state of the `createInteraction` closure. -/
structure IState where
  smoothing : ℝ
  maxTiltDeg : ℝ
  direction : Vec3
  targetDirection : Vec3
  pointerXY : ℝ × ℝ
  orientation : OrientationSample
  disposed : Bool
  deviceOrientationEnabled : Bool

/-- `computeXYFromPointer()` (clone of the stored pointer coordinates). -/
def computeXYFromPointer (s : IState) : ℝ × ℝ := s.pointerXY

/-- `computeXYFromOrientation()`: tilt divided by `max(1e-3, maxTiltDeg)`,
clamped per axis (`gamma → x`, `beta → y`). -/
noncomputable def computeXYFromOrientation (s : IState) : ℝ × ℝ :=
  let maxTilt := max (1 / 1000) s.maxTiltDeg
  let x := clampR (s.orientation.gamma / maxTilt) (-1) 1
  let y := clampR (s.orientation.beta / maxTilt) (-1) 1
  (x, y)

/-- `recomputeTarget()`: no-op when disposed; otherwise pick the active
input source and set `targetDirection = normalize(vec3(x, y, 1))`. -/
noncomputable def recomputeTarget (s : IState) : IState :=
  if s.disposed then s
  else
    let xy :=
      if s.deviceOrientationEnabled ∧ s.orientation.hasSample then computeXYFromOrientation s
      else computeXYFromPointer s
    { s with targetDirection := threeNormalize ⟨xy.1, xy.2, 1⟩ }

/-- The `pointermove` handler `onPointerMove` (with
`window.innerWidth || 1` and `window.innerHeight || 1` passed as `wIn`,
`hIn`). -/
noncomputable def onPointerMove (s : IState) (clientX clientY wIn hIn : ℝ) : IState :=
  let w := jsOr wIn 1
  let h := jsOr hIn 1
  let x := (clientX / w) * 2 - 1
  let y := -((clientY / h) * 2 - 1)
  let s := { s with pointerXY := (clampR x (-1) 1, clampR y (-1) 1) }
  if s.deviceOrientationEnabled then s else recomputeTarget s

/-- The `deviceorientation` handler `onDeviceOrientation`; `beta?`/`gamma?`
are `none` when the event fields are not numbers. -/
noncomputable def onDeviceOrientation (s : IState) (beta? gamma? : Option ℝ) : IState :=
  if s.deviceOrientationEnabled = false then s
  else
    match beta?, gamma? with
    | some b, some g =>
        recomputeTarget { s with orientation := ⟨b, g, true⟩ }
    | _, _ => s

/-- The continuation of `setDeviceOrientationEnabled(true)` after
`await requestDeviceOrientationPermissionIfNeeded()` resumes: on a grant
the enabled flag is set and the target recomputed; on a denial the thrown
error leaves the state untouched.  Note the source re-checks `disposed`
only before the `await`, not here. -/
noncomputable def enableResume (s : IState) (granted : Bool) : IState :=
  if granted then recomputeTarget { s with deviceOrientationEnabled := true } else s

/-- `setDeviceOrientationEnabled(enabled)` run to completion with the
permission outcome `granted` (`true` also covers hosts that expose no
`requestPermission`).  `Except.error` models the rejected promise. -/
noncomputable def setDeviceOrientationEnabledRun (s : IState) (enabled granted : Bool) :
    Except Unit IState :=
  if s.disposed then .ok s
  else if enabled = s.deviceOrientationEnabled then .ok s
  else if enabled then
    if granted then .ok (enableResume s true) else .error ()
  else .ok (recomputeTarget { s with deviceOrientationEnabled := false })

/-- The state reached after `setDeviceOrientationEnabled` settles (a
rejection propagates before any state write, so it leaves the state as
it was). -/
noncomputable def stepSetOrientation (s : IState) (enabled granted : Bool) : IState :=
  match setDeviceOrientationEnabledRun s enabled granted with
  | .ok s' => s'
  | .error _ => s

/-- The smoothing tail of `update()`: snap on factor `≤ 0`, otherwise
`direction.lerp(targetDirection, smoothing)` (three.js lerp is
`d + smoothing * (t - d)` componentwise) followed by `normalize()`. -/
noncomputable def updateSmoothing (s : IState) : IState :=
  if s.smoothing ≤ 0 then { s with direction := s.targetDirection }
  else
    { s with direction :=
        threeNormalize (s.direction + s.smoothing • (s.targetDirection - s.direction)) }

/-- The `update()` method: no-op when disposed; recompute the target from
the pointer when orientation input is off; then apply the smoothing tail. -/
noncomputable def stepUpdate (s : IState) : IState :=
  if s.disposed then s
  else updateSmoothing (if s.deviceOrientationEnabled = false then recomputeTarget s else s)

/-- The `dispose()` method (listener removal is reflected in `step`). -/
def stepDispose (s : IState) : IState := { s with disposed := true }

/-- The state built by `createInteraction` before any event fires:
defaults applied, smoothing clamped to `[0, 1]`, then the initial
`recomputeTarget()` call.  (The optional auto-enable of device
orientation is an asynchronous call of `setDeviceOrientationEnabled(true)`
and is covered by the corresponding trace event.) -/
noncomputable def init (opts : InteractionOptions) : IState :=
  recomputeTarget
    { smoothing := clampR (opts.smoothing.getD 0) 0 1
      maxTiltDeg := opts.maxTiltDeg.getD 35
      direction := ⟨0, 0, 1⟩
      targetDirection := ⟨0, 0, 1⟩
      pointerXY := (0, 0)
      orientation := ⟨0, 0, false⟩
      disposed := false
      deviceOrientationEnabled := false }

/-- The observable events of a controller's lifetime.  `enableResume`
models the suspension point of a pending permission request resolving
(its entry checks having passed when the call was made). -/
inductive IEvent where
  | pointerMove (clientX clientY wIn hIn : ℝ)
  | deviceOrientation (beta? gamma? : Option ℝ)
  | setOrientation (enabled granted : Bool)
  | permissionResume (granted : Bool)
  | update
  | dispose

/-- One event step.  Pointer and orientation events are dropped on a
disposed state because `dispose()` removed the window listeners. -/
noncomputable def step (s : IState) : IEvent → IState
  | .pointerMove cx cy w h => if s.disposed then s else onPointerMove s cx cy w h
  | .deviceOrientation b g => if s.disposed then s else onDeviceOrientation s b g
  | .setOrientation e g => stepSetOrientation s e g
  | .permissionResume g => enableResume s g
  | .update => stepUpdate s
  | .dispose => stepDispose s

/-- The controller state after a sequence of events from creation. -/
noncomputable def run (opts : InteractionOptions) (evs : List IEvent) : IState :=
  evs.foldl step (init opts)

/-! ## Helper lemmas -/

theorem clampR_nonneg_of (v hi : ℝ) : 0 ≤ clampR v 0 hi := le_max_left 0 _

theorem clampR_le_hi {v lo hi : ℝ} (hlo : lo ≤ hi) : clampR v lo hi ≤ hi :=
  max_le hlo (min_le_left hi v)

theorem jsOr_of_ne {a : ℝ} (b : ℝ) (h : a ≠ 0) : jsOr a b = a := if_neg h

/-- The identity TBN frame (geometric normal `(0,0,1)`), used as a concrete
evaluation frame. -/
def idTBN : Mat3 := ⟨⟨1, 0, 0⟩, ⟨0, 1, 0⟩, ⟨0, 0, 1⟩⟩

theorem idTBN_mulVec (v : Vec3) : idTBN.mulVec v = v := by
  cases v
  simp [Mat3.mulVec, idTBN, Vec3.smul_def, Vec3.add_def]

theorem glslNormalize_z_neg {v : Vec3} (h : v.z < 0) : (glslNormalize v).z < 0 := by
  have hne : v ≠ ⟨0, 0, 0⟩ := by
    intro h0; rw [h0] at h; exact lt_irrefl 0 h
  have hn : norm3 v ≠ 0 := fun h0 => hne ((norm3_eq_zero_iff v).mp h0)
  have hpos : 0 < norm3 v := lt_of_le_of_ne (norm3_nonneg v) (Ne.symm hn)
  rw [glslNormalize, Vec3.smul_def]
  have hinv : 0 < 1 / norm3 v := by positivity
  exact mul_neg_of_pos_of_neg hinv h

/-! ## Claim theorems -/

/-- C1: for every fragment that passes the alpha-cutout test, if the light
intensity uniform is `≤ 0` the fragment shader outputs exactly the
base-color sample's RGB paired with the combined alpha, and that output is
independent of the view position, TBN frame, normal and roughness samples
and of all specular parameters. -/
theorem fragment_bakedOnly_fast_path
    (u : ShaderUniforms) (vViewPos : Vec3) (vTBN : Mat3)
    (baseS normalS roughS alphaS : Vec4)
    (hli : u.uLightIntensity ≤ 0)
    (hpass : ¬ baseS.w * alphaS.x < u.uAlphaCutoff) :
    fragmentMain u vViewPos vTBN baseS normalS roughS alphaS
      = some (baseS.xyz, baseS.w * alphaS.x)
    ∧ ∀ (u' : ShaderUniforms) (vViewPos' : Vec3) (vTBN' : Mat3) (normalS' roughS' : Vec4),
        u'.uAlphaCutoff = u.uAlphaCutoff → u'.uLightIntensity ≤ 0 →
        fragmentMain u' vViewPos' vTBN' baseS normalS' roughS' alphaS
          = fragmentMain u vViewPos vTBN baseS normalS roughS alphaS := by
  have hmain : fragmentMain u vViewPos vTBN baseS normalS roughS alphaS
      = some (baseS.xyz, baseS.w * alphaS.x) := by
    unfold fragmentMain
    rw [if_neg hpass, if_pos hli]
  refine ⟨hmain, ?_⟩
  intro u' vp' tbn' nS' rS' hcut hli'
  have hpass' : ¬ baseS.w * alphaS.x < u'.uAlphaCutoff := by rw [hcut]; exact hpass
  have hmain' : fragmentMain u' vp' tbn' baseS nS' rS' alphaS
      = some (baseS.xyz, baseS.w * alphaS.x) := by
    unfold fragmentMain
    rw [if_neg hpass', if_pos hli']
  rw [hmain, hmain']

/-- C1 witness: a fully opaque fragment with light intensity `0` outputs
the base-color sample unchanged. -/
theorem fragment_bakedOnly_fast_path_witness :
    fragmentMain ⟨1 / 2, ⟨1, 1, 1⟩, 15 / 100, 12 / 100, 1, ⟨0, 0, 1⟩, 0⟩
        ⟨0, 0, -1⟩ idTBN ⟨1 / 4, 1 / 2, 3 / 4, 1⟩ ⟨1, 0, 0, 1⟩ ⟨1, 0, 0, 1⟩ ⟨1, 0, 0, 1⟩
      = some ((Vec4.mk (1 / 4) (1 / 2) (3 / 4) 1).xyz,
              (Vec4.mk (1 / 4) (1 / 2) (3 / 4) 1).w * (Vec4.mk 1 0 0 1).x) :=
  (fragment_bakedOnly_fast_path _ _ _ _ _ _ _ le_rfl (by norm_num)).1

/-- C2: for every non-discarded fragment with positive light intensity the
output RGB is `baseColor.rgb + specularColor * min(specularTerm, specularCap)`,
and the additive specular scalar (after the cap, before the tint) never
exceeds `specularCap`. -/
theorem fragment_specular_formula_and_cap
    (u : ShaderUniforms) (vViewPos : Vec3) (vTBN : Mat3)
    (baseS normalS roughS alphaS : Vec4)
    (hli : 0 < u.uLightIntensity)
    (hpass : ¬ baseS.w * alphaS.x < u.uAlphaCutoff) :
    fragmentMain u vViewPos vTBN baseS normalS roughS alphaS
      = some (baseS.xyz
                + (min (specularAdd u vViewPos vTBN normalS roughS) u.uSpecularCap)
                    • u.uSpecularColor,
              baseS.w * alphaS.x)
    ∧ min (specularAdd u vViewPos vTBN normalS roughS) u.uSpecularCap ≤ u.uSpecularCap := by
  refine ⟨?_, min_le_right _ _⟩
  unfold fragmentMain
  rw [if_neg hpass, if_neg (not_le.mpr hli)]

/-- C2 witness: the formula instantiated at a concrete opaque fragment with
light intensity `1`. -/
theorem fragment_specular_formula_and_cap_witness :
    fragmentMain ⟨1 / 2, ⟨1, 1, 1⟩, 15 / 100, 12 / 100, 1, ⟨0, 0, 1⟩, 1⟩
        ⟨0, 0, -1⟩ idTBN ⟨1 / 4, 1 / 2, 3 / 4, 1⟩ ⟨1 / 2, 1 / 2, 1, 1⟩ ⟨1 / 2, 0, 0, 1⟩ ⟨1, 0, 0, 1⟩
      = some ((Vec4.mk (1 / 4) (1 / 2) (3 / 4) 1).xyz
                + (min (specularAdd ⟨1 / 2, ⟨1, 1, 1⟩, 15 / 100, 12 / 100, 1, ⟨0, 0, 1⟩, 1⟩
                          ⟨0, 0, -1⟩ idTBN ⟨1 / 2, 1 / 2, 1, 1⟩ ⟨1 / 2, 0, 0, 1⟩) (12 / 100))
                    • Vec3.mk 1 1 1,
              (Vec4.mk (1 / 4) (1 / 2) (3 / 4) 1).w * (Vec4.mk 1 0 0 1).x) :=
  (fragment_specular_formula_and_cap _ _ _ _ _ _ _ one_pos (by norm_num)).1

theorem shininessOfRoughness_default : shininessOfRoughness (6 / 10) = 536 / 5 := by
  unfold shininessOfRoughness clampR mixR
  rw [min_eq_right (by norm_num : (6 : ℝ) / 10 ≤ 1),
      max_eq_right (by norm_num : (4 : ℝ) / 100 ≤ 6 / 10)]
  norm_num

/-- C4 counterexample: the shininess at (default) roughness `0.6` is
`107.2 = 536/5`, not `≈ 102.4 = 512/5`; the two differ by `4.8`. -/
theorem shininess_at_default_roughness_ne_claimed :
    shininessOfRoughness (6 / 10) = 536 / 5
    ∧ shininessOfRoughness (6 / 10) ≠ 512 / 5
    ∧ |shininessOfRoughness (6 / 10) - 512 / 5| = 24 / 5 := by
  refine ⟨shininessOfRoughness_default, ?_, ?_⟩ <;>
    rw [shininessOfRoughness_default] <;> norm_num

/-- C4 amended: the shininess exponent is the linear interpolation
`mix(256, 8, ·)` of the roughness clamped to `[0.04, 1]` (equivalently
`256 - 248 * clamp(r, 0.04, 1)`): roughness `0.04` yields `246.08`,
roughness `1` yields exactly `8`, and roughness `0.6` yields `107.2`. -/
theorem shininess_linear_interpolation_values :
    (∀ r : ℝ, shininessOfRoughness r = 256 - 248 * clampR r (4 / 100) 1)
    ∧ (∀ roughS : Vec4, mixR 256 8 (getPerPixelRoughness roughS) = shininessOfRoughness roughS.x)
    ∧ shininessOfRoughness (4 / 100) = 6152 / 25
    ∧ shininessOfRoughness 1 = 8
    ∧ shininessOfRoughness (6 / 10) = 536 / 5 := by
  refine ⟨fun r => ?_, fun roughS => rfl, ?_, ?_, ?_⟩
  · unfold shininessOfRoughness mixR; ring
  · unfold shininessOfRoughness clampR mixR
    rw [min_eq_right (by norm_num : (4 : ℝ) / 100 ≤ 1), max_self]
    norm_num
  · unfold shininessOfRoughness clampR mixR
    rw [min_self, max_eq_right (by norm_num : (4 : ℝ) / 100 ≤ 1)]
    norm_num
  · exact shininessOfRoughness_default

/-- The sample a fragment shader reads from a `sampler2D` uniform with no
bound texture.  The shader calls `texture2D` on `uRoughnessMap` /
`uAlphaMap` / `uNormalMap` unconditionally even when the material was
created without those maps (the uniform value is `null`).  Modelled from
the platform contract, which is outside `src/`: WebGL samples an unbound
texture unit as `(0, 0, 0, 1)`, and three.js binds its empty placeholder
texture for a `null` sampler uniform with the same sampled result. -/
noncomputable def webglNullSample : Vec4 := ⟨0, 0, 0, 1⟩

/-- C3 (refuted): absent optional maps are not replaced by neutral default
samples.  With the platform's unbound-sampler result `(0,0,0,1)`:
the per-pixel roughness reads `0.04` instead of the documented default
`0.6` (the `float r = 0.6;` initializer is dead code); a fully opaque
fragment is discarded outright when the alpha map is absent (sampled red
channel `0` zeroes the combined alpha); and the shading normal is
perturbed instead of left geometric.  Moreover no backend fallback sample
can satisfy the claim: any fallback whose red channel is `1` (alpha-neutral)
yields roughness `1`, not `0.6`. -/
theorem absent_optional_maps_not_neutral :
    getPerPixelRoughness webglNullSample = 4 / 100
    ∧ fragmentMain ⟨1 / 2, ⟨1, 1, 1⟩, 15 / 100, 12 / 100, 1, ⟨0, 0, 1⟩, 0⟩
        ⟨0, 0, -1⟩ idTBN ⟨1 / 2, 1 / 2, 1 / 2, 1⟩ webglNullSample webglNullSample webglNullSample
        = none
    ∧ (getSpecularNormal idTBN 1 webglNullSample).z < 0
    ∧ (∀ fb : Vec4, fb.x = 1 → getPerPixelRoughness fb ≠ 6 / 10) := by
  refine ⟨?_, ?_, ?_, ?_⟩
  · unfold getPerPixelRoughness webglNullSample clampR
    norm_num
  · unfold fragmentMain webglNullSample
    rw [if_pos (by norm_num)]
  · unfold getSpecularNormal webglNullSample
    rw [if_neg (by norm_num : ¬ (1 : ℝ) ≤ 0)]
    have h1 : (glslNormalize ⟨(0 : ℝ) * 2 - 1 * 1, 0 * 2 - 1 * 1, 0 * 2 - 1⟩).z < 0 := by
      apply glslNormalize_z_neg; norm_num
    have h2 : ∀ v : Vec3, v.z < 0 → (glslNormalize (idTBN.mulVec v)).z < 0 := by
      intro v hv
      rw [idTBN_mulVec]
      exact glslNormalize_z_neg hv
    have h3 : (glslNormalize ⟨((0 : ℝ) * 2 - 1) * 1, ((0 : ℝ) * 2 - 1) * 1, (0 : ℝ) * 2 - 1⟩).z < 0 := by
      apply glslNormalize_z_neg; norm_num
    exact h2 _ h3
  · intro fb hfb
    unfold getPerPixelRoughness clampR
    rw [hfb]
    show max (4 / 100 : ℝ) (min 1 1) ≠ 6 / 10
    rw [min_self, max_eq_right (by norm_num : (4 : ℝ) / 100 ≤ 1)]
    norm_num

/-- C3 witness: an alpha-neutral fallback sample (red channel `1`) gives
roughness `1`, not the documented default `0.6`. -/
theorem absent_optional_maps_not_neutral_witness :
    getPerPixelRoughness ⟨1, 0, 0, 1⟩ ≠ 6 / 10 :=
  absent_optional_maps_not_neutral.2.2.2 ⟨1, 0, 0, 1⟩ rfl

/-- C5: for every `SpecularLight` (every light built by
`createSpecularLight` has a nonnegative `maxIntensity`) and every attempted
intensity write — NaN, infinite, negative or above-maximum included — the
intensity afterwards reads back within `[0, maxIntensity]`; the write is
clamped, never rejected. -/
theorem specular_light_intensity_clamped
    (light : SpecularLight) (i : JNum) (h : 0 ≤ light.maxIntensity) :
    0 ≤ (setSpecularLightIntensity light i).intensity
    ∧ (setSpecularLightIntensity light i).intensity
        ≤ (setSpecularLightIntensity light i).maxIntensity
    ∧ ∀ opts : Option SpecularLightOpts, 0 ≤ (createSpecularLight opts).maxIntensity := by
  refine ⟨?_, ?_, ?_⟩
  · exact clampR_nonneg_of _ _
  · exact clampR_le_hi h
  · intro opts
    show (0 : ℝ) ≤ (setSpecularLightIntensity _ _).maxIntensity
    exact le_max_left 0 _

/-- C5 witness: writing NaN to a light with `maxIntensity = 0.35` reads
back in range. -/
theorem specular_light_intensity_clamped_witness :
    0 ≤ (setSpecularLightIntensity ⟨⟨0, 0, 1⟩, 0, 35 / 100⟩ .nan).intensity
    ∧ (setSpecularLightIntensity ⟨⟨0, 0, 1⟩, 0, 35 / 100⟩ .nan).intensity
        ≤ (setSpecularLightIntensity ⟨⟨0, 0, 1⟩, 0, 35 / 100⟩ .nan).maxIntensity
    ∧ 0 ≤ (createSpecularLight none).maxIntensity :=
  ⟨(specular_light_intensity_clamped ⟨⟨0, 0, 1⟩, 0, 35 / 100⟩ .nan (by norm_num)).1,
   (specular_light_intensity_clamped ⟨⟨0, 0, 1⟩, 0, 35 / 100⟩ .nan (by norm_num)).2.1,
   (specular_light_intensity_clamped ⟨⟨0, 0, 1⟩, 0, 35 / 100⟩ .nan (by norm_num)).2.2 none⟩

/-- C10: `setSpecularLight` normalizes a nonzero direction before storing
it (the stored `uLightDirView` is unit-length) and stores the intensity
argument exactly as passed — no clamp, no NaN sanitization, no cap. -/
theorem set_specular_light_normalizes_dir_stores_raw_intensity
    (u : LightUniforms) (dir : Vec3) (i : JNum) (h : dir ≠ ⟨0, 0, 0⟩) :
    norm3 ((setSpecularLight u dir i).uLightDirView) = 1
    ∧ (setSpecularLight u dir i).uLightIntensity = i :=
  ⟨norm3_threeNormalize h, rfl⟩

/-- C10 witness: storing direction `(0, 3, 4)` with intensity NaN. -/
theorem set_specular_light_normalizes_dir_stores_raw_intensity_witness :
    norm3 ((setSpecularLight ⟨⟨0, 0, 1⟩, .finite 0⟩ ⟨0, 3, 4⟩ .nan).uLightDirView) = 1
    ∧ (setSpecularLight ⟨⟨0, 0, 1⟩, .finite 0⟩ ⟨0, 3, 4⟩ .nan).uLightIntensity = .nan :=
  set_specular_light_normalizes_dir_stores_raw_intensity _ _ _
    (by simp [Vec3.mk.injEq])

/-! ## Interaction controller lemmas -/

theorem recomputeTarget_smoothing (s : IState) :
    (recomputeTarget s).smoothing = s.smoothing := by
  unfold recomputeTarget; split <;> rfl

theorem recomputeTarget_direction (s : IState) :
    (recomputeTarget s).direction = s.direction := by
  unfold recomputeTarget; split <;> rfl

theorem recomputeTarget_disposed (s : IState) :
    (recomputeTarget s).disposed = s.disposed := by
  unfold recomputeTarget; split <;> rfl

theorem recomputeTarget_enabled (s : IState) :
    (recomputeTarget s).deviceOrientationEnabled = s.deviceOrientationEnabled := by
  unfold recomputeTarget; split <;> rfl

theorem norm3_unitZ : norm3 ⟨0, 0, 1⟩ = 1 := by
  unfold norm3 normSq
  norm_num

theorem threeNormalize_unitZ : threeNormalize ⟨0, 0, 1⟩ = ⟨0, 0, 1⟩ := by
  rw [threeNormalize, norm3_unitZ, jsOr_of_ne 1 one_ne_zero, Vec3.smul_def]
  norm_num

theorem init_disposed (opts : InteractionOptions) : (init opts).disposed = false := by
  unfold init; rw [recomputeTarget_disposed]

theorem init_enabled (opts : InteractionOptions) :
    (init opts).deviceOrientationEnabled = false := by
  unfold init; rw [recomputeTarget_enabled]

/-- The reachability invariant of the controller: the current and target
directions are unit vectors pointing into positive `z`, and the stored
smoothing factor lies in `[0, 1]`. -/
def GoodState (s : IState) : Prop :=
  norm3 s.direction = 1 ∧ 0 < s.direction.z
    ∧ norm3 s.targetDirection = 1 ∧ 0 < s.targetDirection.z
    ∧ 0 ≤ s.smoothing ∧ s.smoothing ≤ 1

theorem recomputeTarget_good {s : IState} (h : GoodState s) :
    GoodState (recomputeTarget s) := by
  unfold recomputeTarget
  split
  · exact h
  · obtain ⟨h1, h2, h3, h4, h5, h6⟩ := h
    exact ⟨h1, h2, norm3_threeNormalize (ne_zero_of_z_pos one_pos),
      threeNormalize_z_pos one_pos, h5, h6⟩

theorem updateSmoothing_good {s : IState} (h : GoodState s) :
    GoodState (updateSmoothing s) := by
  obtain ⟨h1, h2, h3, h4, h5, h6⟩ := h
  unfold updateSmoothing
  split
  · exact ⟨h3, h4, h3, h4, h5, h6⟩
  · rename_i hsm
    push_neg at hsm
    have hz : 0 < (s.direction + s.smoothing • (s.targetDirection - s.direction)).z := by
      rw [Vec3.add_def, Vec3.smul_def]
      show 0 < s.direction.z + s.smoothing * (s.targetDirection - s.direction).z
      rw [show (s.targetDirection - s.direction).z = s.targetDirection.z - s.direction.z from rfl]
      nlinarith
    exact ⟨norm3_threeNormalize (ne_zero_of_z_pos hz), threeNormalize_z_pos hz, h3, h4, h5, h6⟩

theorem stepUpdate_good {s : IState} (h : GoodState s) : GoodState (stepUpdate s) := by
  unfold stepUpdate
  split
  · exact h
  · apply updateSmoothing_good
    split
    · exact recomputeTarget_good h
    · exact h

theorem onPointerMove_good {s : IState} (h : GoodState s) (cx cy wIn hIn : ℝ) :
    GoodState (onPointerMove s cx cy wIn hIn) := by
  unfold onPointerMove
  dsimp only
  split
  · exact h
  · exact recomputeTarget_good (s := { s with pointerXY := _ }) h

theorem enableResume_good {s : IState} (g : Bool) (h : GoodState s) :
    GoodState (enableResume s g) := by
  unfold enableResume
  split
  · exact recomputeTarget_good (s := { s with deviceOrientationEnabled := true }) h
  · exact h

theorem stepSetOrientation_good {s : IState} (e g : Bool) (h : GoodState s) :
    GoodState (stepSetOrientation s e g) := by
  unfold stepSetOrientation setDeviceOrientationEnabledRun
  by_cases hd : s.disposed = true
  · rw [if_pos hd]; exact h
  · rw [if_neg hd]
    by_cases he : e = s.deviceOrientationEnabled
    · rw [if_pos he]; exact h
    · rw [if_neg he]
      cases e with
      | false =>
          rw [if_neg (by simp)]
          exact recomputeTarget_good (s := { s with deviceOrientationEnabled := false }) h
      | true =>
          rw [if_pos rfl]
          cases g with
          | false => rw [if_neg (by simp)]; exact h
          | true => rw [if_pos rfl]; exact enableResume_good true h

theorem step_good {s : IState} (e : IEvent) (h : GoodState s) : GoodState (step s e) := by
  cases e with
  | pointerMove cx cy w hgt =>
      show GoodState (if s.disposed then s else onPointerMove s cx cy w hgt)
      split
      · exact h
      · exact onPointerMove_good h cx cy w hgt
  | deviceOrientation b g =>
      show GoodState (if s.disposed then s else onDeviceOrientation s b g)
      split
      · exact h
      · unfold onDeviceOrientation
        split
        · exact h
        · split
          · exact recomputeTarget_good h
          · exact h
  | setOrientation e g => exact stepSetOrientation_good e g h
  | permissionResume g => exact enableResume_good g h
  | update => exact stepUpdate_good h
  | dispose => exact h

theorem init_good (opts : InteractionOptions) : GoodState (init opts) := by
  unfold init
  apply recomputeTarget_good
  refine ⟨norm3_unitZ, one_pos, norm3_unitZ, one_pos, le_max_left 0 _, ?_⟩
  exact max_le zero_le_one (min_le_left 1 _)

theorem run_good (opts : InteractionOptions) (evs : List IEvent) :
    GoodState (run opts evs) := by
  suffices hsuff : ∀ s : IState, GoodState s → GoodState (evs.foldl step s) from
    hsuff _ (init_good opts)
  intro s hs
  induction evs generalizing s with
  | nil => exact hs
  | cons e t ih => exact ih _ (step_good e hs)

theorem onPointerMove_target (s : IState) (hd : s.disposed = false)
    (he : s.deviceOrientationEnabled = false) (cx cy w h : ℝ)
    (hw : w ≠ 0) (hh : h ≠ 0) :
    (onPointerMove s cx cy w h).targetDirection
      = threeNormalize
          ⟨clampR ((cx / w) * 2 - 1) (-1) 1, clampR (-((cy / h) * 2 - 1)) (-1) 1, 1⟩ := by
  unfold onPointerMove
  dsimp only
  rw [jsOr_of_ne 1 hw, jsOr_of_ne 1 hh, if_neg (by simp [he])]
  unfold recomputeTarget
  rw [if_neg (by simp [hd]), if_neg (by simp [he])]
  rfl

/-- C6: after any sequence of pointer, orientation, mode-switch, update and
dispose events, the controller's direction is exactly unit-length; and
when the (clamped) smoothing factor is `0`, one live `update()` makes the
direction equal the target direction exactly. -/
theorem interaction_direction_unit_and_snap (opts : InteractionOptions) (evs : List IEvent) :
    norm3 (run opts evs).direction = 1
    ∧ ((run opts evs).smoothing = 0 → (run opts evs).disposed = false →
        (stepUpdate (run opts evs)).direction = (stepUpdate (run opts evs)).targetDirection) := by
  refine ⟨(run_good opts evs).1, ?_⟩
  intro hsm hd
  unfold stepUpdate
  rw [if_neg (by simp [hd])]
  have hsm' : (if (run opts evs).deviceOrientationEnabled = false
      then recomputeTarget (run opts evs) else run opts evs).smoothing ≤ 0 := by
    split
    · rw [recomputeTarget_smoothing, hsm]
    · rw [hsm]
  unfold updateSmoothing
  rw [if_pos hsm']

/-- C6 witness: with smoothing option `0`, directly after creation one
`update()` call leaves direction equal to targetDirection. -/
theorem interaction_direction_unit_and_snap_witness :
    (stepUpdate (run ⟨some 0, none, none⟩ [])).direction
      = (stepUpdate (run ⟨some 0, none, none⟩ [])).targetDirection := by
  apply (interaction_direction_unit_and_snap ⟨some 0, none, none⟩ []).2
  · show (init ⟨some 0, none, none⟩).smoothing = 0
    unfold init
    rw [recomputeTarget_smoothing]
    show clampR 0 0 1 = 0
    unfold clampR
    rw [min_eq_right zero_le_one, max_self]
  · exact init_disposed _

/-- C7: in pointer mode (orientation off, live controller) a pointer event
sets `targetDirection = normalize(x, y, 1)` with `x`, `y` the pointer
coordinates normalized to `[-1, 1]` and the vertical axis inverted; in
particular the viewport center yields `(0, 0, 1)` and the top-right corner
yields `normalize(1, 1, 1)`. -/
theorem pointer_mapping_center_and_corner (s : IState) (hd : s.disposed = false)
    (he : s.deviceOrientationEnabled = false) (cx cy w h : ℝ)
    (hw : 0 < w) (hh : 0 < h) :
    (onPointerMove s cx cy w h).targetDirection
      = threeNormalize
          ⟨clampR ((cx / w) * 2 - 1) (-1) 1, clampR (-((cy / h) * 2 - 1)) (-1) 1, 1⟩
    ∧ (onPointerMove s (w / 2) (h / 2) w h).targetDirection = ⟨0, 0, 1⟩
    ∧ (onPointerMove s w 0 w h).targetDirection = threeNormalize ⟨1, 1, 1⟩ := by
  refine ⟨onPointerMove_target s hd he cx cy w h hw.ne' hh.ne', ?_, ?_⟩
  · rw [onPointerMove_target s hd he _ _ _ _ hw.ne' hh.ne']
    have hx : w / 2 / w * 2 - 1 = 0 := by field_simp; ring
    have hy : -(h / 2 / h * 2 - 1) = 0 := by field_simp; ring
    rw [hx, hy]
    have hc : clampR 0 (-1) 1 = 0 := by
      unfold clampR
      rw [min_eq_right zero_le_one, max_eq_right (by norm_num : (-1 : ℝ) ≤ 0)]
    rw [hc, threeNormalize_unitZ]
  · rw [onPointerMove_target s hd he _ _ _ _ hw.ne' hh.ne']
    have hx : w / w * 2 - 1 = 1 := by field_simp; norm_num
    have hy : -(0 / h * 2 - 1) = 1 := by
      rw [zero_div]; ring
    rw [hx, hy]
    have hc : clampR 1 (-1) 1 = 1 := by
      unfold clampR
      rw [min_self, max_eq_right (by norm_num : (-1 : ℝ) ≤ 1)]
    rw [hc]

/-- C7 witness: on a fresh controller over a 1×1 viewport, the pointer at
the center maps the target direction to `(0, 0, 1)`. -/
theorem pointer_mapping_center_and_corner_witness :
    (onPointerMove (init ⟨none, none, none⟩) (1 / 2) (1 / 2) 1 1).targetDirection
      = ⟨0, 0, 1⟩ :=
  (pointer_mapping_center_and_corner (init ⟨none, none, none⟩) (init_disposed _)
    (init_enabled _) 0 0 1 1 one_pos one_pos).2.1

/-- C8: enabling orientation mode while the permission is denied makes the
operation reject (`Except.error`), leaves the state — in particular
`deviceOrientationEnabled` — unchanged, and a subsequent pointer event
still drives `targetDirection` through the pointer mapping. -/
theorem orientation_permission_denied_stays_pointer
    (s : IState) (hd : s.disposed = false) (he : s.deviceOrientationEnabled = false)
    (cx cy w h : ℝ) (hw : 0 < w) (hh : 0 < h) :
    setDeviceOrientationEnabledRun s true false = Except.error ()
    ∧ stepSetOrientation s true false = s
    ∧ (stepSetOrientation s true false).deviceOrientationEnabled = false
    ∧ (onPointerMove (stepSetOrientation s true false) cx cy w h).targetDirection
        = threeNormalize
            ⟨clampR ((cx / w) * 2 - 1) (-1) 1, clampR (-((cy / h) * 2 - 1)) (-1) 1, 1⟩ := by
  have hrun : setDeviceOrientationEnabledRun s true false = Except.error () := by
    unfold setDeviceOrientationEnabledRun
    rw [if_neg (by simp [hd]), if_neg (by simp [he]), if_pos rfl, if_neg (by simp)]
  have hstep : stepSetOrientation s true false = s := by
    unfold stepSetOrientation
    rw [hrun]
  refine ⟨hrun, hstep, by rw [hstep, he], ?_⟩
  rw [hstep]
  exact onPointerMove_target s hd he cx cy w h hw.ne' hh.ne'

/-- C8 witness: a fresh controller with permission denied — the enable
call rejects. -/
theorem orientation_permission_denied_stays_pointer_witness :
    setDeviceOrientationEnabledRun (init ⟨none, none, none⟩) true false
      = Except.error () :=
  (orientation_permission_denied_stays_pointer (init ⟨none, none, none⟩)
    (init_disposed _) (init_enabled _) 0 0 1 1 one_pos one_pos).1

/-- C9 (refuted): a permission request pending at `dispose()` time that
resolves granted afterwards does mutate the disposed controller — the
resumed continuation of `setDeviceOrientationEnabled(true)` (which
re-checks `disposed` only before the `await`) sets
`deviceOrientationEnabled` to `true`.  `update()` itself is a no-op on the
disposed state. -/
theorem dispose_pending_permission_mutates :
    (init ⟨none, none, none⟩).disposed = false
    ∧ (init ⟨none, none, none⟩).deviceOrientationEnabled = false
    ∧ (stepDispose (init ⟨none, none, none⟩)).disposed = true
    ∧ (enableResume (stepDispose (init ⟨none, none, none⟩)) true).deviceOrientationEnabled
        = true
    ∧ stepUpdate (stepDispose (init ⟨none, none, none⟩))
        = stepDispose (init ⟨none, none, none⟩) := by
  refine ⟨init_disposed _, init_enabled _, rfl, ?_, ?_⟩
  · unfold enableResume
    rw [if_pos rfl, recomputeTarget_enabled]
  · unfold stepUpdate
    rw [if_pos
      (show (stepDispose (init ⟨none, none, none⟩)).disposed = true from rfl)]
